import Mathlib

/-!
Verification of the github-data-collector crawler against its specification.

The development shallowly embeds the Python source:

* instants in time are modelled as rationals (seconds since the epoch);
  a Python timedelta of d days is the rational d * 86400;
* dictionaries coming from the GitHub API are modelled as structures whose
  optional entries are Option values (none meaning the key is absent or null);
* the SQLAlchemy session is modelled as explicit state passing over lists of
  rows; mutating an ORM object in place becomes replacing the row in the list;
* network traffic is modelled by oracle functions passed as parameters, and
  calls to time.sleep are recorded in an explicit log where a claim needs them.
-/

set_option autoImplicit false

namespace GHColl

/-! ## Time periods: RepositoryCollector._calculate_time_periods -/

/-- One search window, a pair (start, end) of instants (rational seconds). -/
abbrev Period := ℚ × ℚ

/-- Seconds in one day; timedelta(days=d) is d * secondsPerDay. -/
def secondsPerDay : ℚ := 86400

/-- The while-loop of RepositoryCollector._calculate_time_periods
(repository_collector.py lines 232-246): starting from cur, repeatedly emit
the window (cur, min (cur + delta) end_date) and advance cur to its end while
cur < end_date.  delta is the period length in seconds; the loop terminates
because each step either reaches end_date or advances cur by delta. -/
def calcPeriodsAux (end_date delta : ℚ) (hd : 0 < delta) (cur : ℚ) : List Period :=
  if h : cur < end_date then
    (cur, min (cur + delta) end_date) :: calcPeriodsAux end_date delta hd (min (cur + delta) end_date)
  else []
termination_by Nat.ceil ((end_date - cur) / delta)
decreasing_by
  rcases le_or_lt end_date (cur + delta) with hle | hlt
  · rw [min_eq_right hle, sub_self, zero_div, Nat.ceil_zero]
    exact Nat.ceil_pos.mpr (div_pos (by linarith) hd)
  · rw [min_eq_left hlt.le]
    have hx : (end_date - (cur + delta)) / delta = (end_date - cur) / delta - 1 := by
      field_simp
      ring
    rw [hx]
    have hx1 : (1 : ℚ) < (end_date - cur) / delta := (one_lt_div hd).mpr (by linarith)
    have h2 : 1 < Nat.ceil ((end_date - cur) / delta) := by
      rw [Nat.lt_ceil]; exact_mod_cast hx1
    have h3 : Nat.ceil ((end_date - cur) / delta - 1) ≤ Nat.ceil ((end_date - cur) / delta) - 1 := by
      rw [Nat.ceil_le, Nat.cast_sub h2.le]
      push_cast
      linarith [Nat.le_ceil ((end_date - cur) / delta)]
    exact lt_of_le_of_lt h3 (Nat.sub_lt (by omega) one_pos)

/-- RepositoryCollector._calculate_time_periods (repository_collector.py lines
216-246).  The Python loop diverges when initial_period_days = 0; the guard
restricts the embedding to the terminating case (the default is 30 days). -/
def calculate_time_periods (start_date end_date : ℚ) (initial_period_days : ℕ) : List Period :=
  if h : 0 < initial_period_days then
    calcPeriodsAux end_date (initial_period_days * secondsPerDay)
      (mul_pos (by exact_mod_cast h) (by norm_num [secondsPerDay])) start_date
  else []

/-- The list of periods consecutively tiles the interval from s to e: the
first period starts at s, each period is non-degenerate and ends where the
next one starts, and the last one ends exactly at e. -/
def Tiles (s e : ℚ) : List Period → Prop
  | [] => s = e
  | p :: rest => p.1 = s ∧ s < p.2 ∧ Tiles p.2 e rest

/-! ## Adaptive subdivision: RepositoryCollector._adjust_period_size -/

/-- The subdivision loop of RepositoryCollector._adjust_period_size
(repository_collector.py lines 274-288).  The Python loop runs i over
range(num_subperiods) carrying subperiod_start; here k counts the remaining
iterations (so k = 0 inside the body marks the last iteration, i =
num_subperiods - 1, whose end is forced to the original end endP). -/
def subLoop (endP sub : ℚ) : ℕ → ℚ → List Period
  | 0, _ => []
  | k + 1, cur =>
    (cur, if k = 0 then endP else cur + sub) :: subLoop endP sub k (if k = 0 then endP else cur + sub)

/-- RepositoryCollector._adjust_period_size (repository_collector.py lines
248-288): keep the period when results_count ≤ max_results, otherwise split
it into (results_count // max_results) + 1 sub-periods of duration
(end - start) / num_subperiods each, the last one forced to end at the
original end. -/
def adjust_period_size (period : Period) (results_count : ℕ) (max_results : ℕ) : List Period :=
  if results_count ≤ max_results then [period]
  else
    let num := results_count / max_results + 1
    let total := period.2 - period.1
    let sub := total / (num : ℚ)
    subLoop period.2 sub num period.1

/-- The repository-creation filter induced by the query string built in
RepositoryCollector._search_repositories_in_period (repository_collector.py
lines 305-309), which is created:{start}..{end}.  GitHub range qualifiers
of the form A..B match values from A to B inclusive at both ends (external
GitHub search semantics; the source relies on this behaviour of the API). -/
def createdInRange (p : Period) (t : ℚ) : Prop := p.1 ≤ t ∧ t ≤ p.2

instance (p : Period) (t : ℚ) : Decidable (createdInRange p t) := by
  unfold createdInRange; infer_instance

/-! ## The per-window collection loop: RepositoryCollector._collect_repositories_in_period -/

/-- The persisted collection state (the collection_state.json document managed
by the CollectionState class, repository_collector.py lines 31-175), restricted
to the fields the collection loop reads and writes. -/
structure CollectionState where
  time_periods : List Period
  current_period_index : ℕ
  current_period_page : ℕ
  repositories_collected : ℕ
deriving DecidableEq, Repr

/-- One page of GitHub search results: the reported total_count and the items
of the page (repositories abstracted to their numeric ids). -/
structure SearchResults where
  total_count : ℕ
  items : List ℕ
deriving DecidableEq, Repr

/-- Truthiness test of the Python guard max_repos and total_collected >= max_repos:
None and 0 are falsy. -/
def maxReposReached (max_repos : Option ℕ) (total_collected : ℕ) : Bool :=
  match max_repos with
  | none => false
  | some m => if m = 0 then false else decide (m ≤ total_collected)

/-- The while-loop of RepositoryCollector._collect_repositories_in_period
(repository_collector.py lines 664-795) on its reachable paths.  search is
the page oracle (what _search_repositories_in_period returns for each page).

The block that would split an over-full window (lines 700-731, guarded by
total_count > 1000) is unreachable in the source: it sits inside the
except GitHubAPIError handler, textually after the continue statement at line
698, so no execution reaches it.  The embedding therefore contains no
splitting branch; this is exactly what claim C1 is about.

Carried variables mirror the Python locals: page, collected_count,
total_count (set from the first response) and the persisted state st.  The
loop paginates: it stops on an empty page, when max_repos is reached, or when
a page is short (fewer than 100 items) or the page counter passes 10. -/
def collectLoop (search : ℕ → SearchResults) (max_repos : Option ℕ)
    (page collected : ℕ) (total_count : Option ℕ) (st : CollectionState) :
    ℕ × CollectionState :=
  let results := search page
  let tc := total_count.getD results.total_count
  let items := results.items
  if items = [] then (collected, st)
  else
    let collected1 := collected + items.length
    let st1 : CollectionState :=
      { st with repositories_collected := st.repositories_collected + items.length,
                current_period_page := page }
    if maxReposReached max_repos st1.repositories_collected then (collected1, st1)
    else
      let page1 := page + 1
      let st2 : CollectionState := { st1 with current_period_page := page1 }
      if items.length < 100 ∨ 10 < page1 then (collected1, st2)
      else collectLoop search max_repos page1 collected1 (some tc) st2
termination_by 11 - page
decreasing_by omega

/-- RepositoryCollector._collect_repositories_in_period: the loop is entered
with page read from the state (current_period_page, default 1),
collected_count = 0 and total_count = None. -/
def collect_repositories_in_period (search : ℕ → SearchResults)
    (max_repos : Option ℕ) (st : CollectionState) : ℕ × CollectionState :=
  collectLoop search max_repos st.current_period_page 0 none st

/-- A search oracle describing a window whose probed total_count is 2500 with
full pages of 100 fresh repository ids per page: the failing input of claim
C1 (the spec fixture of an over-full window). -/
def oracle2500 : ℕ → SearchResults :=
  fun page => ⟨2500, (List.range 100).map (fun i => 100 * page + i)⟩

/-! ## The store: database/database.py (GitHubDatabase)

API dictionaries become structures; an entry accessed with d.get(k) or
d.get(k, default) is an Option field (none meaning the key is absent or its
value is null), an entry accessed with d[k] is a plain field.  Datetimes are
abstracted to integers and GitHubDatabase._parse_datetime to the identity on
them.  Tables are lists of rows; SQLAlchemy in-place mutation of a fetched
row becomes replacing the row in its list. -/

/-- Owner (user) profile dictionary as consumed by insert_contributor
(database.py lines 301-344): id and login are indexed directly, everything
else is read with .get. -/
structure ContributorData where
  id : ℕ
  login : String
  name : Option String := none
  email : Option String := none
  type : Option String := none
  avatar_url : Option String := none
  company : Option String := none
  blog : Option String := none
  location : Option String := none
  country_code : Option String := none
  region : Option String := none
  bio : Option String := none
  twitter_username : Option String := none
  public_repos : Option ℕ := none
  public_gists : Option ℕ := none
  followers : Option ℕ := none
  following : Option ℕ := none
  created_at : Option ℤ := none
  updated_at : Option ℤ := none
deriving DecidableEq, Repr

/-- Organization profile dictionary as consumed by insert_organization
(database.py lines 382-426): the contributor shape plus public_members. -/
structure OrganizationData where
  id : ℕ
  login : String
  name : Option String := none
  email : Option String := none
  type : Option String := none
  avatar_url : Option String := none
  company : Option String := none
  blog : Option String := none
  location : Option String := none
  country_code : Option String := none
  region : Option String := none
  bio : Option String := none
  twitter_username : Option String := none
  public_repos : Option ℕ := none
  public_gists : Option ℕ := none
  followers : Option ℕ := none
  following : Option ℕ := none
  public_members : Option ℕ := none
  created_at : Option ℤ := none
  updated_at : Option ℤ := none
deriving DecidableEq, Repr

/-- Repository summary dictionary as consumed by insert_repository
(database.py lines 70-130).  The private flag is renamed private_flag because
private is a Lean keyword. -/
structure RepoData where
  id : ℕ
  name : String
  full_name : String
  owner : Option ContributorData := none
  organization : Option OrganizationData := none
  description : Option String := none
  homepage : Option String := none
  language : Option String := none
  private_flag : Option Bool := none
  fork : Option Bool := none
  default_branch : Option String := none
  size : Option ℕ := none
  stargazers_count : Option ℕ := none
  watchers_count : Option ℕ := none
  forks_count : Option ℕ := none
  open_issues_count : Option ℕ := none
  contributors_count : Option ℕ := none
  commits_count : Option ℕ := none
  pull_requests_count : Option ℕ := none
  created_at : Option ℤ := none
  updated_at : Option ℤ := none
  pushed_at : Option ℤ := none
deriving DecidableEq, Repr

/-- A row of the contributors table (database/models.py, Contributor). -/
structure Contributor where
  id : ℕ
  login : String
  name : Option String
  email : Option String
  type : Option String
  avatar_url : Option String
  company : Option String
  blog : Option String
  location : Option String
  country_code : Option String
  region : Option String
  bio : Option String
  twitter_username : Option String
  public_repos : Option ℕ
  public_gists : Option ℕ
  followers : Option ℕ
  following : Option ℕ
  created_at : Option ℤ
  updated_at : Option ℤ
deriving DecidableEq, Repr

/-- A row of the organizations table (database/models.py, Organization). -/
structure Organization where
  id : ℕ
  login : String
  name : Option String
  email : Option String
  type : Option String
  avatar_url : Option String
  company : Option String
  blog : Option String
  location : Option String
  country_code : Option String
  region : Option String
  bio : Option String
  twitter_username : Option String
  public_repos : Option ℕ
  public_gists : Option ℕ
  followers : Option ℕ
  following : Option ℕ
  public_members : Option ℕ
  created_at : Option ℤ
  updated_at : Option ℤ
deriving DecidableEq, Repr

/-- A row of the repositories table (database/models.py, Repository). -/
structure Repository where
  id : ℕ
  name : String
  full_name : String
  owner_id : ℕ
  organization_id : Option ℕ
  description : Option String
  homepage : Option String
  language : Option String
  private_flag : Bool
  fork : Bool
  default_branch : Option String
  size : Option ℕ
  stargazers_count : ℕ
  watchers_count : ℕ
  forks_count : ℕ
  open_issues_count : ℕ
  contributors_count : Option ℕ
  commits_count : Option ℕ
  pull_requests_count : Option ℕ
  created_at : Option ℤ
  updated_at : Option ℤ
  pushed_at : Option ℤ
deriving DecidableEq, Repr

/-- The database: the three tables a GitHubDatabase session touches. -/
structure Store where
  repositories : List Repository
  contributors : List Contributor
  organizations : List Organization
deriving DecidableEq, Repr

/-- The Python idiom d.get(key, current) for an Option-valued column: a
present entry overrides, an absent one keeps the current value. -/
def getOr {α : Type} (new : Option α) (cur : Option α) : Option α :=
  match new with
  | some v => some v
  | none => cur

/-- GitHubDatabase.update_contributor (database.py lines 346-380): every
profile field is overwritten with d.get(field, current); id is untouched. -/
def update_contributor_row (c : Contributor) (d : ContributorData) : Contributor :=
  { c with
    login := d.login
    name := getOr d.name c.name
    email := getOr d.email c.email
    type := getOr d.type c.type
    avatar_url := getOr d.avatar_url c.avatar_url
    company := getOr d.company c.company
    blog := getOr d.blog c.blog
    location := getOr d.location c.location
    country_code := getOr d.country_code c.country_code
    region := getOr d.region c.region
    bio := getOr d.bio c.bio
    twitter_username := getOr d.twitter_username c.twitter_username
    public_repos := getOr d.public_repos c.public_repos
    public_gists := getOr d.public_gists c.public_gists
    followers := getOr d.followers c.followers
    following := getOr d.following c.following
    updated_at := getOr d.updated_at c.updated_at }

/-- The new row built by GitHubDatabase.insert_contributor (database.py
lines 316-337). -/
def new_contributor_row (d : ContributorData) : Contributor :=
  { id := d.id, login := d.login, name := d.name, email := d.email,
    type := d.type, avatar_url := d.avatar_url, company := d.company,
    blog := d.blog, location := d.location, country_code := d.country_code,
    region := d.region, bio := d.bio, twitter_username := d.twitter_username,
    public_repos := d.public_repos, public_gists := d.public_gists,
    followers := d.followers, following := d.following,
    created_at := d.created_at, updated_at := d.updated_at }

/-- GitHubDatabase.insert_contributor (database.py lines 301-344): update the
existing row with the same id, or append a fresh row.  Returns the store and
the row the caller gets back. -/
def insert_contributor (s : Store) (d : ContributorData) : Store × Contributor :=
  match s.contributors.find? (fun c => c.id == d.id) with
  | some existing =>
    let updated := update_contributor_row existing d
    ({ s with contributors :=
        s.contributors.map (fun c => if c.id == d.id then updated else c) },
      updated)
  | none =>
    let c := new_contributor_row d
    ({ s with contributors := s.contributors ++ [c] }, c)

/-- GitHubDatabase.update_organization (database.py lines 428-463). -/
def update_organization_row (o : Organization) (d : OrganizationData) : Organization :=
  { o with
    login := d.login
    name := getOr d.name o.name
    email := getOr d.email o.email
    type := getOr d.type o.type
    avatar_url := getOr d.avatar_url o.avatar_url
    company := getOr d.company o.company
    blog := getOr d.blog o.blog
    location := getOr d.location o.location
    country_code := getOr d.country_code o.country_code
    region := getOr d.region o.region
    bio := getOr d.bio o.bio
    twitter_username := getOr d.twitter_username o.twitter_username
    public_repos := getOr d.public_repos o.public_repos
    public_gists := getOr d.public_gists o.public_gists
    followers := getOr d.followers o.followers
    following := getOr d.following o.following
    public_members := getOr d.public_members o.public_members
    updated_at := getOr d.updated_at o.updated_at }

/-- The new row built by GitHubDatabase.insert_organization (database.py
lines 398-419). -/
def new_organization_row (d : OrganizationData) : Organization :=
  { id := d.id, login := d.login, name := d.name, email := d.email,
    type := d.type, avatar_url := d.avatar_url, company := d.company,
    blog := d.blog, location := d.location, country_code := d.country_code,
    region := d.region, bio := d.bio, twitter_username := d.twitter_username,
    public_repos := d.public_repos, public_gists := d.public_gists,
    followers := d.followers, following := d.following,
    public_members := d.public_members,
    created_at := d.created_at, updated_at := d.updated_at }

/-- GitHubDatabase.insert_organization (database.py lines 382-426). -/
def insert_organization (s : Store) (d : OrganizationData) : Store × Organization :=
  match s.organizations.find? (fun o => o.id == d.id) with
  | some existing =>
    let updated := update_organization_row existing d
    ({ s with organizations :=
        s.organizations.map (fun o => if o.id == d.id then updated else o) },
      updated)
  | none =>
    let o := new_organization_row d
    ({ s with organizations := s.organizations ++ [o] }, o)

/-- GitHubDatabase.update_repository (database.py lines 132-172): overwrite
each column with d.get(col, current) - including, when the incoming dictionary
carries them, the enrichment aggregates - then, if the dictionary carries an
organization, insert it and point organization_id at it.  owner_id is never
touched. -/
def update_repository (s : Store) (repo : Repository) (d : RepoData) :
    Store × Repository :=
  let base : Repository :=
    { repo with
      name := d.name
      full_name := d.full_name
      description := getOr d.description repo.description
      homepage := getOr d.homepage repo.homepage
      language := getOr d.language repo.language
      private_flag := d.private_flag.getD repo.private_flag
      fork := d.fork.getD repo.fork
      default_branch := getOr d.default_branch repo.default_branch
      size := getOr d.size repo.size
      stargazers_count := d.stargazers_count.getD repo.stargazers_count
      watchers_count := d.watchers_count.getD repo.watchers_count
      forks_count := d.forks_count.getD repo.forks_count
      open_issues_count := d.open_issues_count.getD repo.open_issues_count
      contributors_count := getOr d.contributors_count repo.contributors_count
      commits_count := getOr d.commits_count repo.commits_count
      pull_requests_count := getOr d.pull_requests_count repo.pull_requests_count
      updated_at := getOr d.updated_at repo.updated_at
      pushed_at := getOr d.pushed_at repo.pushed_at }
  match d.organization with
  | some od =>
    let io := insert_organization s od
    let updated := { base with organization_id := some io.2.id }
    ({ io.1 with repositories :=
        (io.1).repositories.map (fun r => if r.id == repo.id then updated else r) },
      updated)
  | none =>
    ({ s with repositories :=
        s.repositories.map (fun r => if r.id == repo.id then base else r) },
      base)

/-- GitHubDatabase.insert_repository (database.py lines 70-130): an existing
row (same id) is updated in place; otherwise the owner is inserted first,
then the organization if present, and only then is the repository row added;
a summary without owner data yields no row and returns None. -/
def insert_repository (s : Store) (d : RepoData) : Store × Option Repository :=
  match s.repositories.find? (fun r => r.id == d.id) with
  | some existing =>
    let ur := update_repository s existing d
    (ur.1, some ur.2)
  | none =>
    match d.owner with
    | none => (s, none)
    | some od =>
      let ic := insert_contributor s od
      let so : Store × Option Organization :=
        match d.organization with
        | some ogd =>
          let io := insert_organization ic.1 ogd
          (io.1, some io.2)
        | none => (ic.1, none)
      let repo : Repository :=
        { id := d.id, name := d.name, full_name := d.full_name,
          owner_id := ic.2.id,
          organization_id := so.2.map (fun o => o.id),
          description := d.description, homepage := d.homepage,
          language := d.language,
          private_flag := d.private_flag.getD false,
          fork := d.fork.getD false,
          default_branch := d.default_branch, size := d.size,
          stargazers_count := d.stargazers_count.getD 0,
          watchers_count := d.watchers_count.getD 0,
          forks_count := d.forks_count.getD 0,
          open_issues_count := d.open_issues_count.getD 0,
          contributors_count := d.contributors_count,
          commits_count := d.commits_count,
          pull_requests_count := d.pull_requests_count,
          created_at := d.created_at, updated_at := d.updated_at,
          pushed_at := d.pushed_at }
      ({ so.1 with repositories := (so.1).repositories ++ [repo] }, some repo)

/-- GitHubDatabase.check_repository_exists (database.py lines 198-208). -/
def check_repository_exists (s : Store) (repo_id : ℕ) : Bool :=
  s.repositories.any (fun r => r.id == repo_id)

/-- RepositoryCollector._process_repository (repository_collector.py lines
504-564) on its reachable data path: if the id of the summary is truthy and the
repository already exists, record the duplicate metric and return without
touching the store; otherwise run the owner processor (an oracle here, it
performs API calls) and insert the repository.  Returns the store, the
duplicate-repository metric, and the row insert_repository produced. -/
def process_repository (owner_proc : RepoData → RepoData) (s : Store)
    (duplicates : ℕ) (d : RepoData) : Store × ℕ × Option Repository :=
  if d.id ≠ 0 ∧ check_repository_exists s d.id then
    (s, duplicates + 1, none)
  else
    let d1 := owner_proc d
    let ir := insert_repository s d1
    (ir.1, duplicates, ir.2)

/-! ## GraphQL enrichment: enrichment/graphql_handler.py and enrichment/updater.py -/

/-- One repository object of a GraphQL batch response: the opaque node id (a
string), the numeric databaseId (null when GitHub does not return it), and
the two totalCount chains read with .get defaults. -/
structure GqlRepo where
  id : String
  databaseId : Option ℤ
  pullRequestsTotal : Option ℕ
  historyTotal : Option ℕ
deriving DecidableEq, Repr

/-- What one attempt of the per-batch request loop observes: a network error
(timeout or connection reset, raised before any header is read) or an HTTP
response with its status, the X-RateLimit-Remaining and X-RateLimit-Reset
headers, and the decoded data object (one entry per aliased sub-query, null
for a missing repository). -/
inductive AttemptOutcome where
  | netErr
  | httpResponse (status : ℕ) (remaining : ℤ) (reset : ℤ) (payload : List (Option GqlRepo))
deriving DecidableEq, Repr

/-- An id value as found in a stats dictionary: the updater meets both the
numeric databaseId and the opaque string node id. -/
inductive IdVal where
  | int (n : ℤ)
  | str (s : String)
deriving DecidableEq, Repr

/-- Python int(v): an int passes through, a string is parsed as a decimal
integer and fails otherwise (an opaque base64 node id never parses). -/
def IdVal.toInt? : IdVal → Option ℤ
  | .int n => some n
  | .str s => s.toInt?

/-- A stats dictionary handed to the updater.  fetch_repo_stats emits
dictionaries with keys repo_id and database_id; map_and_update_stats probes
the four key names databaseId, database_id, repo_id, id in that order, so all
four are carried as optional entries. -/
structure Stat where
  databaseId : Option IdVal := none
  database_id : Option IdVal := none
  repo_id : Option IdVal := none
  id : Option IdVal := none
  calculated_pr_count : ℕ := 0
  calculated_commit_count : ℕ := 0
  calculated_contributor_count : ℕ := 0
deriving DecidableEq, Repr

/-- The result-extraction loop of GraphQLHandler.fetch_repo_stats
(graphql_handler.py lines 104-113): keep each sub-query object that is truthy
and has a truthy id, and record the node id under repo_id and the numeric
databaseId under database_id (calculated_contributor_count is left at 0). -/
def extractStats : List (Option GqlRepo) → List Stat
  | [] => []
  | none :: rest => extractStats rest
  | some rd :: rest =>
    if rd.id = "" then extractStats rest
    else
      { repo_id := some (.str rd.id),
        database_id := rd.databaseId.map .int,
        calculated_pr_count := rd.pullRequestsTotal.getD 0,
        calculated_commit_count := rd.historyTotal.getD 0,
        calculated_contributor_count := 0 } :: extractStats rest

/-- The retry loop for attempt in range(3) of GraphQLHandler.fetch_repo_stats
(graphql_handler.py lines 73-128).  oracle gives the outcome of each attempt,
now is int(time.time()), attempt is the loop counter and rem the attempts left
(the loop starts at attempt 0 with rem = 3).  The result is (success, the
stats extracted on success, the log of time.sleep durations in order).

Per attempt: a network error sleeps 2 ^ attempt and moves on; on a response,
if remaining ≤ 3 the code first sleeps max 0 (reset - now + 2); a 5xx raises
and the handler sleeps 2 ^ attempt; a 403 with remaining == 0 sleeps
max 0 (reset - now + 2) again and continues - the continue targets the for
loop, so the attempt is consumed; any other status ≥ 400 raises via
raise_for_status and the handler sleeps 2 ^ attempt; otherwise the attempt
succeeds and the loop breaks. -/
def attemptLoop (oracle : ℕ → AttemptOutcome) (now : ℤ) :
    ℕ → ℕ → Bool × List Stat × List ℤ
  | _, 0 => (false, [], [])
  | attempt, rem + 1 =>
    match oracle attempt with
    | .netErr =>
      let r := attemptLoop oracle now (attempt + 1) rem
      (r.1, r.2.1, 2 ^ attempt :: r.2.2)
    | .httpResponse status remaining reset payload =>
      let pre : List ℤ := if remaining ≤ 3 then [max 0 (reset - now + 2)] else []
      if 500 ≤ status then
        let r := attemptLoop oracle now (attempt + 1) rem
        (r.1, r.2.1, pre ++ 2 ^ attempt :: r.2.2)
      else if status = 403 ∧ remaining = 0 then
        let r := attemptLoop oracle now (attempt + 1) rem
        (r.1, r.2.1, pre ++ max 0 (reset - now + 2) :: r.2.2)
      else if 400 ≤ status then
        let r := attemptLoop oracle now (attempt + 1) rem
        (r.1, r.2.1, pre ++ 2 ^ attempt :: r.2.2)
      else
        (true, extractStats payload, pre)

/-- One repository reference (owner, name) handed to the GraphQL batcher. -/
abbrev RepoRef := String × String

/-- GraphQLHandler._batch (graphql_handler.py lines 141-144): successive
slices of size n.  The fuel argument starts at the list length; since every
step removes at least one element when 0 < n, the fuel never runs out (for
n = 0 Python raises inside range, which the embedding need not model). -/
def batchListAux {α : Type} (n : ℕ) : ℕ → List α → List (List α)
  | 0, _ => []
  | _, [] => []
  | fuel + 1, l => l.take n :: batchListAux n fuel (l.drop n)

/-- The list of batches of size n of a repository list. -/
def batchList {α : Type} (n : ℕ) (l : List α) : List (List α) :=
  batchListAux n l.length l

/-- GraphQLHandler.fetch_repo_stats (graphql_handler.py lines 36-139) with
the checkpoint file abstracted to the start index it stores: batches before
start_idx are skipped; each remaining batch runs the attempt loop (oracle
indexed by batch position); stats of successful attempts accumulate, and a
batch whose three attempts all failed is appended to failed_batches.  Batches
that merely return unusable data (for example databaseId null everywhere)
count as successes. -/
def fetch_repo_stats (oracle : ℕ → ℕ → AttemptOutcome) (now : ℤ)
    (repos : List RepoRef) (batch_size : ℕ) (start_idx : ℕ) :
    List Stat × List (List RepoRef) :=
  let batches := batchList batch_size repos
  (batches.enum).foldl
    (fun acc p =>
      if p.1 < start_idx then acc
      else
        let r := attemptLoop (oracle p.1) now 0 3
        (acc.1 ++ r.2.1, acc.2 ++ if r.1 then [] else [p.2]))
    ([], [])

/-- A row of the repositories table as the enrichment updater sees it through
sqlite (enrichment/updater.py): the numeric primary key and the three
aggregate columns the UPDATE statement sets. -/
structure EnrichRow where
  id : ℤ
  pull_requests_count : Option ℕ
  commits_count : Option ℕ
  contributors_count : Option ℕ
deriving DecidableEq, Repr

/-- The flexible id detection of map_and_update_stats (updater.py lines
50-56): the first of databaseId, database_id, repo_id, id that is present and
not None. -/
def selectId (st : Stat) : Option IdVal :=
  (((st.databaseId).orElse (fun _ => st.database_id)).orElse
      (fun _ => st.repo_id)).orElse (fun _ => st.id)

/-- The per-stat loop of map_and_update_stats (updater.py lines 48-94): skip
a stat with no usable id key or whose id does not cast to int, and keep an
update tuple (pr, commits, contributors, id) for each stat whose id is an
existing row.  Tuples are kept in order. -/
def collectUpdateTuples (db : List EnrichRow) : List Stat → List (ℕ × ℕ × ℕ × ℤ)
  | [] => []
  | st :: rest =>
    match (selectId st).bind IdVal.toInt? with
    | none => collectUpdateTuples db rest
    | some i =>
      if db.any (fun r => r.id = i) then
        (st.calculated_pr_count, st.calculated_commit_count,
          st.calculated_contributor_count, i) :: collectUpdateTuples db rest
      else collectUpdateTuples db rest

/-- The executemany UPDATE of map_and_update_stats (updater.py lines 96-102):
each tuple sets the three aggregate columns of the row with the matching id. -/
def applyUpdates (db : List EnrichRow) (tuples : List (ℕ × ℕ × ℕ × ℤ)) :
    List EnrichRow :=
  tuples.foldl
    (fun db t =>
      db.map (fun r =>
        if r.id = t.2.2.2 then
          { r with pull_requests_count := some t.1,
                   commits_count := some t.2.1,
                   contributors_count := some t.2.2.1 }
        else r))
    db

/-- map_and_update_stats (updater.py lines 13-139): returns the updated table
and the return value of the function (the number of update tuples; in dry-run mode
the matching count, which coincides, and no write happens). -/
def map_and_update_stats (db : List EnrichRow) (stats : List Stat)
    (dry_run : Bool) : List EnrichRow × ℕ :=
  let tuples := collectUpdateTuples db stats
  if dry_run then (db, tuples.length)
  else (applyUpdates db tuples, tuples.length)

/-- The pre-update filter of scripts/enrich_repository_stats.py main (lines
166-170): keep a stat only if its database_id entry is present and its value
is a member of the set of selected repository ids (a null value and an opaque
string value both fail the membership test). -/
def filter_stats_for_update (db_ids : List ℤ) (stats : List Stat) : List Stat :=
  stats.filter (fun st =>
    match st.database_id with
    | some (.int v) => db_ids.contains v
    | some (.str _) => false
    | none => false)

/-! ## Token pool and HTTP client: api/github_api.py -/

/-- The per-credential record of GitHubTokenPool (api/github_api.py lines
282-297): the token string with its remaining quota, reset timestamp and
last-used timestamp.  The pool is the dictionary token_info, modelled as a
list in insertion order (tokens are distinct dictionary keys). -/
structure TokenInfo where
  token : String
  remaining : ℤ
  reset_time : ℚ
  last_used : ℚ
deriving DecidableEq, Repr

/-- The failure of GitHubTokenPool.get_best_token on an empty pool: the Python
builtin min raises ValueError on an empty sequence; the specification calls this
failure PoolExhausted. -/
inductive PoolError where
  | poolExhausted
deriving DecidableEq, Repr

/-- The optimistic-reset pass of get_best_token (github_api.py lines
309-313): a credential whose reset_time has passed gets its quota back and a
reset one hour away. -/
def refreshTokens (pool : List TokenInfo) (now : ℚ) : List TokenInfo :=
  pool.map (fun i =>
    if i.reset_time < now then { i with remaining := 5000, reset_time := now + 3600 }
    else i)

/-- Python min(..., key=reset_time) over the credential list: the first
element attaining the minimal reset_time (min is stable), none when empty. -/
def minByResetTime : List TokenInfo → Option TokenInfo
  | [] => none
  | i :: rest =>
    some (rest.foldl (fun best x => if x.reset_time < best.reset_time then x else best) i)

/-- available_tokens.sort(key=(-remaining, last_used)) followed by taking
element 0 (github_api.py lines 346-348): the first element with maximal
remaining, ties broken by minimal last_used, further ties by list order
(the Python sort is stable, so only a strictly better key displaces the current
best). -/
def bestAvailable : List TokenInfo → Option TokenInfo
  | [] => none
  | i :: rest =>
    some (rest.foldl
      (fun best x =>
        if best.remaining < x.remaining ∨
            (x.remaining = best.remaining ∧ x.last_used < best.last_used) then x
        else best) i)

/-- GitHubTokenPool.get_best_token (github_api.py lines 299-353): refresh
elapsed resets, then pick the best credential with remaining quota and stamp
its last_used; when none has quota left, wait for the earliest reset_time and
return that credential (its last_used is not stamped); with no credentials at
all, the Python builtin min raises (PoolExhausted).  The blocking wait is pure sleeping
and is not otherwise modelled. -/
def get_best_token (pool : List TokenInfo) (now : ℚ) :
    Except PoolError (String × List TokenInfo) :=
  let refreshed := refreshTokens pool now
  let available := refreshed.filter (fun i => 0 < i.remaining)
  match bestAvailable available with
  | some best =>
    .ok (best.token,
      refreshed.map (fun i =>
        if i.token = best.token then { i with last_used := now } else i))
  | none =>
    match minByResetTime refreshed with
    | none => .error .poolExhausted
    | some i => .ok (i.token, refreshed)

/-- GitHubTokenPool.update_token_info (github_api.py lines 355-366). -/
def update_token_info (pool : List TokenInfo) (tk : String) (remaining : ℤ)
    (reset : ℚ) : List TokenInfo :=
  pool.map (fun i =>
    if i.token = tk then { i with remaining := remaining, reset_time := reset } else i)

/-- A JSON document, abstracted to an association list; Python dict
truthiness is emptiness of the list. -/
abbrev Json := List (String × ℤ)

/-- The response cache on disk: entries (key, _cache_time, data).  The md5
hashing of the key is dropped (it only shortens file names). -/
abbrev Cache := List (String × ℚ × Json)

/-- The cache key built by GitHubClient._get_cache_path (github_api.py lines
102-127): the endpoint, and when there are parameters a question mark and the
ampersand-joined k=v pairs in sorted order (the embedding takes the parameter
list already sorted). -/
def cacheKey (endpoint : String) (params : List (String × String)) : String :=
  if params = [] then endpoint
  else endpoint ++ "?" ++ String.intercalate "&" (params.map (fun p => p.1 ++ "=" ++ p.2))

/-- GitHubClient._get_from_cache (github_api.py lines 129-159): nothing
without a cache directory; a stored entry is returned unless it is older than
86400 seconds. -/
def get_from_cache (enabled : Bool) (cache : Cache) (now : ℚ) (endpoint : String)
    (params : List (String × String)) : Option Json :=
  if enabled then
    match cache.find? (fun e => e.1 = cacheKey endpoint params) with
    | some e => if 86400 < now - e.2.1 then none else some e.2.2
    | none => none
  else none

/-- GitHubClient._save_to_cache (github_api.py lines 161-186): overwrite the
entry file for the key with the data stamped now. -/
def save_to_cache (enabled : Bool) (cache : Cache) (now : ℚ) (endpoint : String)
    (params : List (String × String)) (data : Json) : Cache :=
  if enabled then
    (cacheKey endpoint params, now, data) :: cache.filter (fun e => e.1 ≠ cacheKey endpoint params)
  else cache

/-- The mutable per-client fields of GitHubClient read and written by a
request: the three rate-limit numbers and whether a cache directory was
configured. -/
structure ClientState where
  rate_limit : ℤ
  rate_limit_remaining : ℤ
  rate_limit_reset : ℚ
  cache_enabled : Bool

/-- What the network returns for one HTTP request: a transport error, or a
response with status, the optional three X-RateLimit headers (limit,
remaining, reset) and the decoded body; rl_text says whether the body text
contains the phrase rate limit exceeded. -/
inductive HttpResp where
  | netErr
  | resp (status : ℕ) (limit_hdr : Option ℤ) (remaining_hdr : Option ℤ)
      (reset_hdr : Option ℚ) (body : Json) (rl_text : Bool)

/-- The errors GitHubClient.request surfaces (github_api.py lines 20-26):
GitHubRateLimitError on a 403 mentioning the rate limit, GitHubAPIError for
everything else that raises. -/
inductive ApiErr where
  | rateLimit
  | apiError
deriving DecidableEq, Repr

/-- The outcome of one GitHubClient.request: the result, the updated client
fields and cache, whether an HTTP request went out on the wire, and whether a
cache hit was recorded in the metrics. -/
structure ClientResult where
  result : Except ApiErr Json
  client : ClientState
  cache : Cache
  http_issued : Bool
  cache_hit : Bool

/-- The network path of GitHubClient.request (github_api.py lines 216-272):
update the rate-limit fields from whichever headers are present, classify the
status (403 with the rate-limit phrase, 404 returning an empty document, any
other 4xx/5xx raising), and on success write the body to the cache for GET
requests with use_cache. -/
def client_http_request (cl : ClientState) (cache : Cache) (now : ℚ)
    (http : HttpResp) (method endpoint : String) (params : List (String × String))
    (use_cache : Bool) : ClientResult :=
  match http with
  | .netErr => ⟨.error .apiError, cl, cache, true, false⟩
  | .resp status limit_hdr remaining_hdr reset_hdr body rl_text =>
    let cl1 : ClientState :=
      { cl with rate_limit := limit_hdr.getD cl.rate_limit,
                rate_limit_remaining := remaining_hdr.getD cl.rate_limit_remaining,
                rate_limit_reset := reset_hdr.getD cl.rate_limit_reset }
    if 400 ≤ status then
      if status = 403 ∧ rl_text then ⟨.error .rateLimit, cl1, cache, true, false⟩
      else if status = 404 then ⟨.ok [], cl1, cache, true, false⟩
      else ⟨.error .apiError, cl1, cache, true, false⟩
    else
      let cache1 :=
        if method = "GET" ∧ use_cache then
          save_to_cache cl.cache_enabled cache now endpoint params body
        else cache
      ⟨.ok body, cl1, cache1, true, false⟩

/-- GitHubClient.request (github_api.py lines 188-272): for a GET with
use_cache, a truthy fresh cached document is returned at once (counted as a
cache hit, no wire traffic); a falsy or missing or expired entry falls
through to the network path. -/
def client_request (cl : ClientState) (cache : Cache) (now : ℚ) (http : HttpResp)
    (method endpoint : String) (params : List (String × String)) (use_cache : Bool) :
    ClientResult :=
  if method = "GET" ∧ use_cache then
    match get_from_cache cl.cache_enabled cache now endpoint params with
    | some d =>
      if d = [] then client_http_request cl cache now http method endpoint params use_cache
      else ⟨.ok d, cl, cache, false, true⟩
    | none => client_http_request cl cache now http method endpoint params use_cache
  else client_http_request cl cache now http method endpoint params use_cache

/-- The shared state of GitHubAPI (github_api.py lines 368-409): the token
pool, one client per token (a total map; the dictionary is built over exactly
the tokens of the pool), the shared response-cache directory, and the cache-hit
metric of the performance tracker. -/
structure ApiState where
  pool : List TokenInfo
  clients : String → ClientState
  cache : Cache
  cache_hits : ℕ

/-- The request-level errors of GitHubAPI.request: the uncaught ValueError of
an empty pool, or the classified HTTP errors. -/
inductive ReqErr where
  | pool
  | rateLimit
  | apiError
deriving DecidableEq, Repr

/-- GitHubAPI._get_client (github_api.py lines 392-409): pick the best token
(stamping its last_used), then push the current rate-limit numbers of the chosen client
numbers back into the pool. -/
def api_get_client (s : ApiState) (now : ℚ) : Except PoolError (String × ApiState) :=
  match get_best_token s.pool now with
  | .error e => .error e
  | .ok (tk, pool1) =>
    let cl := s.clients tk
    .ok (tk, { s with pool := update_token_info pool1 tk cl.rate_limit_remaining cl.rate_limit_reset })

/-- The retry loop of GitHubAPI.request (github_api.py lines 411-446).  http
gives the wire response of each attempt; rem counts the attempts left
(attempt < retries - 1 exactly when rem ≥ 1 after peeling one off).  Returns
the result, the final state and the number of HTTP requests issued.  The
fuel-0 case is unreachable for the default retries = 3 (Python would fall off
the loop and return None for retries = 0). -/
def apiRequestLoop (http : ℕ → HttpResp) (now : ℚ) (method endpoint : String)
    (params : List (String × String)) (use_cache : Bool) :
    ℕ → ℕ → ApiState → (Except ReqErr Json) × ApiState × ℕ
  | _, 0, s => (.error .apiError, s, 0)
  | attempt, rem + 1, s =>
    match api_get_client s now with
    | .error _ => (.error .pool, s, 0)
    | .ok (tk, s1) =>
      let r := client_request (s1.clients tk) s1.cache now (http attempt)
        method endpoint params use_cache
      let s2 : ApiState :=
        { s1 with
          clients := fun t => if t = tk then r.client else s1.clients t,
          cache := r.cache,
          cache_hits := s1.cache_hits + (if r.cache_hit then 1 else 0) }
      let issued := if r.http_issued then 1 else 0
      match r.result with
      | .ok d => (.ok d, s2, issued)
      | .error .rateLimit =>
        if rem = 0 then (.error .rateLimit, s2, issued)
        else
          let rec1 := apiRequestLoop http now method endpoint params use_cache (attempt + 1) rem s2
          (rec1.1, rec1.2.1, issued + rec1.2.2)
      | .error .apiError =>
        if rem = 0 then (.error .apiError, s2, issued)
        else
          let rec1 := apiRequestLoop http now method endpoint params use_cache (attempt + 1) rem s2
          (rec1.1, rec1.2.1, issued + rec1.2.2)

/-- GitHubAPI.request with the default retries = 3. -/
def api_request (s : ApiState) (now : ℚ) (http : ℕ → HttpResp)
    (method endpoint : String) (params : List (String × String)) (use_cache : Bool) :
    (Except ReqErr Json) × ApiState × ℕ :=
  apiRequestLoop http now method endpoint params use_cache 0 3 s

/-! ## Fixtures and invariants used by the claims about the store -/

/-- The empty database. -/
def emptyStore : Store := ⟨[], [], []⟩

/-- Fixture owner profile. -/
def ownerAlice : ContributorData := { id := 7, login := "alice" }

/-- Fixture summary as first collected: repository 5 with 10 stars. -/
def repoSummaryOld : RepoData :=
  { id := 5, name := "r", full_name := "alice/r", owner := some ownerAlice,
    stargazers_count := some 10 }

/-- The store after ingesting repoSummaryOld into the empty database. -/
def storeWithRepo5 : Store := (insert_repository emptyStore repoSummaryOld).1

/-- A later summary of the same repository carrying a fresh star count. -/
def repoSummaryNew : RepoData := { repoSummaryOld with stargazers_count := some 999 }

/-- A summary of repository 5 carrying no owner data. -/
def repoSummaryNoOwner : RepoData := { id := 5, name := "r", full_name := "alice/r" }

/-- The owner-before-repository invariant of the store: every repository row
references a contributor row that exists. -/
def OwnerInv (s : Store) : Prop :=
  ∀ r ∈ s.repositories, ∃ c ∈ s.contributors, c.id = r.owner_id

/-- A GraphQL oracle whose every batch succeeds at once but returns only the
opaque node id - databaseId comes back null. -/
def oracleNodeOnly : ℕ → ℕ → AttemptOutcome :=
  fun _ _ => .httpResponse 200 100 0 [some ⟨"MDEwOlJlcG9zaXRvcnkx", none, some 5, some 7⟩]

/-- A GraphQL oracle that answers 403 with X-RateLimit-Remaining 0 (reset at
50) to the first three attempts of every batch and would succeed from the
fourth attempt on. -/
def oracle403 : ℕ → ℕ → AttemptOutcome :=
  fun _ attempt =>
    if attempt < 3 then .httpResponse 403 0 50 []
    else .httpResponse 200 100 0 [some ⟨"MDEwOlJlcG9zaXRvcnkx", some 123, some 5, some 7⟩]

/-- Fixture client: full quota, reset in the past, cache directory set. -/
def clientT1 : ClientState :=
  { rate_limit := 5000, rate_limit_remaining := 5000, rate_limit_reset := 0,
    cache_enabled := true }

/-- Fixture GitHubAPI state: one credential t1 never used yet, and a fresh
cached response for the search endpoint. -/
def apiStart : ApiState :=
  { pool := [⟨"t1", 5000, 0, 0⟩],
    clients := fun _ => clientT1,
    cache := [("search/repositories", 0, [("total_count", 42)])],
    cache_hits := 0 }

/-! ## Lemmas about the time-period computation (claims C10, C3, C5) -/

/-- One loop step of _calculate_time_periods strictly decreases the number of
remaining full periods. -/
theorem ceil_step_lt (e delta cur : ℚ) (hd : 0 < delta) (h : cur < e) :
    Nat.ceil ((e - min (cur + delta) e) / delta) < Nat.ceil ((e - cur) / delta) := by
  rcases le_or_lt e (cur + delta) with hle | hlt
  · rw [min_eq_right hle, sub_self, zero_div, Nat.ceil_zero]
    exact Nat.ceil_pos.mpr (div_pos (by linarith) hd)
  · rw [min_eq_left hlt.le]
    have hx : (e - (cur + delta)) / delta = (e - cur) / delta - 1 := by
      field_simp
      ring
    rw [hx]
    have hx1 : (1 : ℚ) < (e - cur) / delta := (one_lt_div hd).mpr (by linarith)
    have h2 : 1 < Nat.ceil ((e - cur) / delta) := by
      rw [Nat.lt_ceil]; exact_mod_cast hx1
    have h3 : Nat.ceil ((e - cur) / delta - 1) ≤ Nat.ceil ((e - cur) / delta) - 1 := by
      rw [Nat.ceil_le, Nat.cast_sub h2.le]
      push_cast
      linarith [Nat.le_ceil ((e - cur) / delta)]
    exact lt_of_le_of_lt h3 (Nat.sub_lt (by omega) one_pos)

/-- The loop of _calculate_time_periods tiles the interval from cur to e. -/
theorem calcPeriodsAux_tiles (e delta : ℚ) (hd : 0 < delta) :
    ∀ (n : ℕ) (cur : ℚ), Nat.ceil ((e - cur) / delta) ≤ n → cur ≤ e →
      Tiles cur e (calcPeriodsAux e delta hd cur) := by
  intro n
  induction n with
  | zero =>
    intro cur hn hle
    have hnotlt : ¬ cur < e := by
      intro hlt
      have hp : 0 < Nat.ceil ((e - cur) / delta) :=
        Nat.ceil_pos.mpr (div_pos (by linarith) hd)
      omega
    rw [calcPeriodsAux, dif_neg hnotlt]
    exact le_antisymm hle (not_lt.mp hnotlt)
  | succ n ih =>
    intro cur hn hle
    rw [calcPeriodsAux]
    by_cases hlt : cur < e
    · rw [dif_pos hlt]
      refine ⟨rfl, lt_min (by linarith) hlt, ?_⟩
      show Tiles (min (cur + delta) e) e _
      apply ih
      · have hdec := ceil_step_lt e delta cur hd hlt
        omega
      · exact min_le_right _ _
    · rw [dif_neg hlt]
      exact le_antisymm hle (not_lt.mp hlt)

/-- Every period the loop of _calculate_time_periods emits is non-degenerate
and at most delta long. -/
theorem calcPeriodsAux_duration (e delta : ℚ) (hd : 0 < delta) :
    ∀ (n : ℕ) (cur : ℚ), Nat.ceil ((e - cur) / delta) ≤ n →
      ∀ p ∈ calcPeriodsAux e delta hd cur, 0 < p.2 - p.1 ∧ p.2 - p.1 ≤ delta := by
  intro n
  induction n with
  | zero =>
    intro cur hn p hp
    have hnotlt : ¬ cur < e := by
      intro hlt
      have hpos : 0 < Nat.ceil ((e - cur) / delta) :=
        Nat.ceil_pos.mpr (div_pos (by linarith) hd)
      omega
    rw [calcPeriodsAux, dif_neg hnotlt] at hp
    simp at hp
  | succ n ih =>
    intro cur hn p hp
    by_cases hlt : cur < e
    · rw [calcPeriodsAux, dif_pos hlt] at hp
      rcases List.mem_cons.mp hp with h1 | h1
      · subst h1
        constructor
        · have : cur < min (cur + delta) e := lt_min (by linarith) hlt
          simpa using this
        · have : min (cur + delta) e ≤ cur + delta := min_le_left _ _
          simp only
          linarith
      · apply ih _ _ p h1
        have hdec := ceil_step_lt e delta cur hd hlt
        omega
    · rw [calcPeriodsAux, dif_neg hlt] at hp
      simp at hp

/-- subLoop emits exactly as many sub-periods as iterations remain. -/
theorem subLoop_length (e sub : ℚ) : ∀ (k : ℕ) (cur : ℚ), (subLoop e sub k cur).length = k := by
  intro k
  induction k with
  | zero => intro cur; rfl
  | succ k ih => intro cur; simp [subLoop, ih]

/-- When the invariant cur + k * sub = e holds, the i-th sub-period emitted
by subLoop is exactly (cur + i * sub, cur + (i + 1) * sub): in exact
arithmetic the forced last end coincides with the arithmetic one. -/
theorem subLoop_get? (e sub : ℚ) :
    ∀ (k : ℕ) (cur : ℚ), cur + k * sub = e → ∀ i, i < k →
      (subLoop e sub k cur).get? i = some (cur + i * sub, cur + (i + 1) * sub) := by
  intro k
  induction k with
  | zero => intro cur _ i hi; exact absurd hi (Nat.not_lt_zero i)
  | succ k ih =>
    intro cur hinv i hi
    match i with
    | 0 =>
      by_cases hk : k = 0
      · subst hk
        have he : e = cur + sub := by push_cast at hinv; linarith
        simp [subLoop, he]
      · simp [subLoop, hk]
    | Nat.succ i =>
      have hk : k ≠ 0 := by omega
      have hnext : (subLoop e sub (k + 1) cur).get? (i + 1)
          = (subLoop e sub k (cur + sub)).get? i := by
        simp [subLoop, hk]
      rw [hnext]
      have hinv1 : (cur + sub) + k * sub = e := by push_cast at hinv ⊢; linarith
      rw [ih (cur + sub) hinv1 i (by omega)]
      simp only [Option.some.injEq, Prod.mk.injEq]
      push_cast
      constructor <;> ring

/-- The invariant fed to subLoop by _adjust_period_size: num equal parts of
(e - s) sum back to e. -/
theorem adjust_invariant (s e : ℚ) (num : ℕ) (hnum : num ≠ 0) :
    s + num * ((e - s) / (num : ℚ)) = e := by
  have : (num : ℚ) ≠ 0 := Nat.cast_ne_zero.mpr hnum
  field_simp

/-- C10: for every pair of datetimes with start strictly before end,
_calculate_time_periods returns a non-empty list of consecutive periods
exactly tiling the interval from start to end (the first begins at start,
each ends where the next begins, the last ends exactly at end), every period
spanning at most initial_period_days days; for start not before end it
returns the empty list. -/
theorem c10_calculate_time_periods_tiling (s e : ℚ) (days : ℕ) (hdays : 0 < days) :
    (s < e →
      calculate_time_periods s e days ≠ [] ∧
      Tiles s e (calculate_time_periods s e days) ∧
      ∀ p ∈ calculate_time_periods s e days,
        0 < p.2 - p.1 ∧ p.2 - p.1 ≤ days * secondsPerDay) ∧
    (e ≤ s → calculate_time_periods s e days = []) := by
  have hd : (0 : ℚ) < days * secondsPerDay :=
    mul_pos (by exact_mod_cast hdays) (by norm_num [secondsPerDay])
  constructor
  · intro hlt
    refine ⟨?_, ?_, ?_⟩
    · unfold calculate_time_periods
      rw [dif_pos hdays, calcPeriodsAux, dif_pos hlt]
      simp
    · unfold calculate_time_periods
      rw [dif_pos hdays]
      exact calcPeriodsAux_tiles e (days * secondsPerDay) hd
        (Nat.ceil ((e - s) / (days * secondsPerDay))) s le_rfl hlt.le
    · unfold calculate_time_periods
      rw [dif_pos hdays]
      exact calcPeriodsAux_duration e (days * secondsPerDay) hd
        (Nat.ceil ((e - s) / (days * secondsPerDay))) s le_rfl
  · intro hle
    unfold calculate_time_periods
    rw [dif_pos hdays, calcPeriodsAux, dif_neg (not_lt.mpr hle)]

/-- Witness for C10 at start 0, end 45 days (3888000 s), 30-day periods. -/
theorem c10_calculate_time_periods_tiling_witness :
    calculate_time_periods 0 3888000 30 ≠ [] ∧
    Tiles 0 3888000 (calculate_time_periods 0 3888000 30) ∧
    ∀ p ∈ calculate_time_periods 0 3888000 30,
      0 < p.2 - p.1 ∧ p.2 - p.1 ≤ 30 * secondsPerDay :=
  (c10_calculate_time_periods_tiling 0 3888000 30 (by norm_num)).1 (by norm_num)

/-- C3 counterexample: for the spec fixture results_count = 2500 with
max_results = 1000, the claim demands ceil(2500 / 1000) + 1 sub-windows -
the Nat expression (2500 + 1000 - 1) / 1000 + 1 = 4 - but
_adjust_period_size builds 2500 // 1000 + 1 = 3. -/
theorem c3_counterexample :
    (adjust_period_size (0, 3000) 2500 1000).length ≠ (2500 + 1000 - 1) / 1000 + 1 := by
  decide

/-- C3 amended: for results_count ≤ max_results the original window is
returned unchanged; for results_count > max_results the code returns exactly
results_count // max_results + 1 (floor division, not ceiling) sub-windows,
all of equal duration (end - start) / (results_count // max_results + 1). -/
theorem c3_adjust_period_size_count (s e : ℚ) (rc mr : ℕ) (hmr : 0 < mr) :
    (rc ≤ mr → adjust_period_size (s, e) rc mr = [(s, e)]) ∧
    (mr < rc →
      (adjust_period_size (s, e) rc mr).length = rc / mr + 1 ∧
      ∀ p ∈ adjust_period_size (s, e) rc mr,
        p.2 - p.1 = (e - s) / ((rc / mr + 1 : ℕ) : ℚ)) := by
  constructor
  · intro hle
    unfold adjust_period_size
    rw [if_pos hle]
  · intro hlt
    have hnotle : ¬ rc ≤ mr := not_le.mpr hlt
    have hform : adjust_period_size (s, e) rc mr
        = subLoop e ((e - s) / ((rc / mr + 1 : ℕ) : ℚ)) (rc / mr + 1) s := by
      simp only [adjust_period_size, if_neg hnotle]
    constructor
    · rw [hform, subLoop_length]
    · intro p hp
      rw [hform] at hp
      obtain ⟨i, hget⟩ := List.mem_iff_get?.mp hp
      have hi : i < rc / mr + 1 := by
        obtain ⟨h1, -⟩ := List.get?_eq_some.mp hget
        rw [subLoop_length] at h1
        exact h1
      have hinv := adjust_invariant s e (rc / mr + 1) (Nat.succ_ne_zero _)
      rw [subLoop_get? e ((e - s) / ((rc / mr + 1 : ℕ) : ℚ)) (rc / mr + 1) s hinv i hi] at hget
      have hpeq : p = (s + i * ((e - s) / ((rc / mr + 1 : ℕ) : ℚ)),
          s + (i + 1) * ((e - s) / ((rc / mr + 1 : ℕ) : ℚ))) := by
        injection hget with h1
        exact h1.symm
      rw [hpeq]
      ring

/-- Witness for the C3 amended theorem at the fixture input: 3 sub-windows
of 1000 seconds each for the window (0, 3000) with 2500 results. -/
theorem c3_adjust_period_size_count_witness :
    (adjust_period_size (0, 3000) 2500 1000).length = 2500 / 1000 + 1 ∧
    ∀ p ∈ adjust_period_size (0, 3000) 2500 1000,
      p.2 - p.1 = ((3000 : ℚ) - 0) / ((2500 / 1000 + 1 : ℕ) : ℚ) :=
  (c3_adjust_period_size_count 0 3000 2500 1000 (by norm_num)).2 (by norm_num)

/-- C5 counterexample: splitting the window (0, 2) probed at 1500 results
yields the sub-windows (0, 1) and (1, 2); a repository created exactly at
instant 1 satisfies the created filter of both distinct sub-windows, because
the query created:A..B is inclusive at both ends, not inclusive-exclusive. -/
theorem c5_counterexample :
    adjust_period_size (0, 2) 1500 1000 = [(0, 1), (1, 2)] ∧
    createdInRange (0, 1) 1 ∧ createdInRange (1, 2) 1 := by
  refine ⟨by norm_num [adjust_period_size, subLoop], ⟨?_, ?_⟩, ⟨?_, ?_⟩⟩ <;>
    norm_num [createdInRange]

/-- C5 amended: the sub-windows of a split are disjoint except at their
shared boundaries: a creation instant matched by two distinct sub-windows
forces them to be adjacent and the instant to be their common boundary. -/
theorem c5_subwindows_overlap_only_at_boundary (s e : ℚ) (rc mr : ℕ)
    (hse : s < e) (hmr : 0 < mr) (hrc : mr < rc) :
    ∀ i j pi pj,
      (adjust_period_size (s, e) rc mr).get? i = some pi →
      (adjust_period_size (s, e) rc mr).get? j = some pj →
      i < j → ∀ t : ℚ, createdInRange pi t → createdInRange pj t →
        j = i + 1 ∧ t = pi.2 := by
  have hnotle : ¬ rc ≤ mr := not_le.mpr hrc
  have hform : adjust_period_size (s, e) rc mr
      = subLoop e ((e - s) / ((rc / mr + 1 : ℕ) : ℚ)) (rc / mr + 1) s := by
    simp only [adjust_period_size, if_neg hnotle]
  intro i j pi pj hgi hgj hij t hti htj
  rw [hform] at hgi hgj
  have hnum : (0 : ℚ) < ((rc / mr + 1 : ℕ) : ℚ) := by positivity
  have hsub : (0 : ℚ) < (e - s) / ((rc / mr + 1 : ℕ) : ℚ) :=
    div_pos (by linarith) hnum
  have hinv := adjust_invariant s e (rc / mr + 1) (Nat.succ_ne_zero _)
  have hi : i < rc / mr + 1 := by
    obtain ⟨h1, -⟩ := List.get?_eq_some.mp hgi
    rw [subLoop_length] at h1
    exact h1
  have hj : j < rc / mr + 1 := by
    obtain ⟨h1, -⟩ := List.get?_eq_some.mp hgj
    rw [subLoop_length] at h1
    exact h1
  rw [subLoop_get? e _ _ s hinv i hi] at hgi
  rw [subLoop_get? e _ _ s hinv j hj] at hgj
  set sub := (e - s) / ((rc / mr + 1 : ℕ) : ℚ) with hsubdef
  have hpi : pi = (s + i * sub, s + (i + 1) * sub) := by
    injection hgi with h1; exact h1.symm
  have hpj : pj = (s + j * sub, s + (j + 1) * sub) := by
    injection hgj with h1; exact h1.symm
  rw [hpi] at hti
  rw [hpj] at htj
  obtain ⟨hti1, hti2⟩ := hti
  obtain ⟨htj1, htj2⟩ := htj
  simp only at hti1 hti2 htj1 htj2
  have hmul : (j : ℚ) * sub ≤ ((i : ℚ) + 1) * sub := by linarith
  have hcast : (j : ℚ) ≤ (i : ℚ) + 1 := le_of_mul_le_mul_right hmul hsub
  have hji : j ≤ i + 1 := by exact_mod_cast hcast
  have hjeq : j = i + 1 := by omega
  refine ⟨hjeq, ?_⟩
  rw [hpi]
  simp only
  have hj' : (j : ℚ) = (i : ℚ) + 1 := by exact_mod_cast hjeq
  rw [hj'] at htj1
  linarith

/-- No branch of the per-window collection loop writes the time_periods list:
the only code that would (repository_collector.py lines 700-731) is
unreachable. -/
theorem collectLoop_time_periods (search : ℕ → SearchResults) (mr : Option ℕ) :
    ∀ (n page coll : ℕ) (tc : Option ℕ) (st : CollectionState), 11 - page ≤ n →
      ((collectLoop search mr page coll tc st).2).time_periods = st.time_periods := by
  intro n
  induction n with
  | zero =>
    intro page coll tc st hn
    rw [collectLoop]
    dsimp only
    split
    · rfl
    · split
      · rfl
      · split
        · rfl
        · rename_i h3
          push_neg at h3
          omega
  | succ n ih =>
    intro page coll tc st hn
    rw [collectLoop]
    dsimp only
    split
    · rfl
    · split
      · rfl
      · split
        · rfl
        · rename_i h3
          push_neg at h3
          rw [ih (page + 1) _ _ _ (by omega)]

/-- C1 (code bug): the driver never replaces an over-full window.  The
splitting block of _collect_repositories_in_period (repository_collector.py
lines 700-731) is dead code - it sits inside the except GitHubAPIError
handler after the continue at line 698 - so for every search oracle and
every starting state the persisted time_periods list is returned unchanged;
on the failing input (a window probed at total_count = 2500 with full pages)
the driver simply paginates the 10 reachable pages, collecting 1000 items,
instead of replacing the window with sub-windows and re-processing. -/
theorem c1_overfull_window_is_paginated_not_split :
    (∀ (search : ℕ → SearchResults) (mr : Option ℕ) (st : CollectionState),
      ((collect_repositories_in_period search mr st).2).time_periods = st.time_periods) ∧
    (collect_repositories_in_period oracle2500 none ⟨[(0, 2678400)], 0, 1, 0⟩).1 = 1000 ∧
    ((collect_repositories_in_period oracle2500 none
        ⟨[(0, 2678400)], 0, 1, 0⟩).2).time_periods = [(0, 2678400)] := by
  refine ⟨?_, ?_, ?_⟩
  · intro search mr st
    exact collectLoop_time_periods search mr (11 - st.current_period_page)
      st.current_period_page 0 none st le_rfl
  · set_option maxRecDepth 4000 in
    rw [collect_repositories_in_period]
    repeat (rw [collectLoop]; norm_num [oracle2500, maxReposReached])
  · exact collectLoop_time_periods oracle2500 none 10 1 0 none _ (by norm_num)

/-- Witness for the C5 amended theorem at the counterexample input: the two
sub-windows of (0, 2) both matching instant 1 are adjacent and 1 is their
shared boundary. -/
theorem c5_subwindows_overlap_only_at_boundary_witness :
    1 = 0 + 1 ∧ (1 : ℚ) = (((0 : ℚ), (1 : ℚ)) : Period).2 :=
  c5_subwindows_overlap_only_at_boundary 0 2 1500 1000 (by norm_num) (by norm_num)
    (by norm_num) 0 1 (0, 1) (1, 2)
    (by norm_num [adjust_period_size, subLoop])
    (by norm_num [adjust_period_size, subLoop])
    (by norm_num) 1 (by refine ⟨?_, ?_⟩ <;> norm_num [createdInRange])
    (by refine ⟨?_, ?_⟩ <;> norm_num [createdInRange])

/-! ## Lemmas about the store (claims C4, C9) -/

/-- insert_contributor touches only the contributors table. -/
theorem insert_contributor_frame (s : Store) (od : ContributorData) :
    (insert_contributor s od).1.repositories = s.repositories ∧
    (insert_contributor s od).1.organizations = s.organizations := by
  unfold insert_contributor
  rcases hf : s.contributors.find? (fun c => c.id == od.id) with _ | existing <;> simp [hf]

/-- The row insert_contributor hands back is in the store it returns. -/
theorem insert_contributor_mem_self (s : Store) (od : ContributorData) :
    (insert_contributor s od).2 ∈ (insert_contributor s od).1.contributors := by
  unfold insert_contributor
  rcases hf : s.contributors.find? (fun c => c.id == od.id) with _ | existing <;> simp [hf]
  have hpred : (existing.id == od.id) = true := by
    have h := List.find?_some hf
    simpa using h
  exact ⟨existing, List.mem_of_find?_eq_some hf,
    fun h => absurd (show existing.id = od.id by simpa using hpred) h⟩

/-- insert_contributor never loses a contributor id: updating a row keeps its
id, inserting only appends. -/
theorem insert_contributor_preserves_ids (s : Store) (od : ContributorData) (i : ℕ) :
    (∃ c ∈ s.contributors, c.id = i) →
    ∃ c ∈ (insert_contributor s od).1.contributors, c.id = i := by
  rintro ⟨c, hc, rfl⟩
  unfold insert_contributor
  rcases hf : s.contributors.find? (fun c => c.id == od.id) with _ | existing
  · simp only [hf]
    exact ⟨c, List.mem_append_left _ hc, rfl⟩
  · simp only [hf]
    by_cases hcid : (c.id == od.id) = true
    · refine ⟨update_contributor_row existing od,
        List.mem_map.mpr ⟨c, hc, by simp [hcid]⟩, ?_⟩
      have h1 : existing.id = od.id := by simpa using List.find?_some hf
      have h2 : c.id = od.id := by simpa using hcid
      simp [update_contributor_row, h1, h2]
    · exact ⟨c, List.mem_map.mpr ⟨c, hc, by simp [hcid]⟩, rfl⟩

/-- insert_organization touches only the organizations table. -/
theorem insert_organization_frame (s : Store) (od : OrganizationData) :
    (insert_organization s od).1.repositories = s.repositories ∧
    (insert_organization s od).1.contributors = s.contributors := by
  unfold insert_organization
  rcases hf : s.organizations.find? (fun o => o.id == od.id) with _ | existing <;> simp [hf]

/-- update_repository preserves the owner-before-repository invariant: it
never changes owner_id and never removes a contributor row. -/
theorem update_repository_inv (s : Store) (repo : Repository) (d : RepoData)
    (hmem : repo ∈ s.repositories) (hinv : OwnerInv s) :
    OwnerInv (update_repository s repo d).1 := by
  unfold update_repository
  rcases hog : d.organization with _ | od
  · intro r hr
    obtain ⟨r0, hr0, rfl⟩ := List.mem_map.mp hr
    dsimp only
    split
    · obtain ⟨c, hc, hci⟩ := hinv repo hmem
      exact ⟨c, hc, hci⟩
    · exact hinv r0 hr0
  · intro r hr
    obtain ⟨r0, hr0, rfl⟩ := List.mem_map.mp hr
    rw [(insert_organization_frame s od).1] at hr0
    dsimp only
    rw [(insert_organization_frame s od).2]
    split
    · obtain ⟨c, hc, hci⟩ := hinv repo hmem
      exact ⟨c, hc, hci⟩
    · exact hinv r0 hr0

/-- C9 amended: every repository row insert_repository writes references an
existing contributor row (the owner is inserted before the repository row is
added, and updates never touch owner_id); and a summary without owner data
inserts nothing and returns None provided no row with its id already exists
(if one exists, the existing row is updated and returned instead - see the
counterexample). -/
theorem c9_insert_repository_owner_exists (s : Store) (d : RepoData) :
    (OwnerInv s → OwnerInv (insert_repository s d).1) ∧
    (d.owner = none → s.repositories.find? (fun r => r.id == d.id) = none →
      insert_repository s d = (s, none)) := by
  constructor
  · intro hinv
    unfold insert_repository
    rcases hf : s.repositories.find? (fun r => r.id == d.id) with _ | existing
    · rcases how : d.owner with _ | od
      · simpa [hf, how] using hinv
      · rcases hog : d.organization with _ | ogd
        · simp only [hf, how, hog]
          intro r hr
          rcases List.mem_append.mp hr with h1 | h1
          · rw [(insert_contributor_frame s od).1] at h1
            exact insert_contributor_preserves_ids s od _ (hinv r h1)
          · rw [List.mem_singleton.mp h1]
            exact ⟨(insert_contributor s od).2, insert_contributor_mem_self s od, rfl⟩
        · simp only [hf, how, hog]
          intro r hr
          rw [(insert_organization_frame (insert_contributor s od).1 ogd).2]
          rcases List.mem_append.mp hr with h1 | h1
          · rw [(insert_organization_frame (insert_contributor s od).1 ogd).1,
              (insert_contributor_frame s od).1] at h1
            exact insert_contributor_preserves_ids s od _ (hinv r h1)
          · rw [List.mem_singleton.mp h1]
            exact ⟨(insert_contributor s od).2, insert_contributor_mem_self s od, rfl⟩
    · have hmem := List.mem_of_find?_eq_some hf
      simp only [hf]
      exact update_repository_inv s existing d hmem hinv
  · intro how hf
    unfold insert_repository
    rw [hf, how]

/-- C9 counterexample: a summary that carries no owner data but whose id is
already stored does not make insert_repository return None - the existing row
is updated and returned (database.py checks existence at line 81 before the
owner check at lines 87-92). -/
theorem c9_counterexample :
    repoSummaryNoOwner.owner = none ∧
    ((insert_repository storeWithRepo5 repoSummaryNoOwner).2).isSome = true := by
  exact ⟨rfl, by decide⟩

/-- Witness for the C9 amended theorem: the invariant holds after ingesting
the fixture, and the no-owner summary against the empty store yields None. -/
theorem c9_insert_repository_owner_exists_witness :
    OwnerInv (insert_repository storeWithRepo5 repoSummaryNew).1 ∧
    insert_repository emptyStore repoSummaryNoOwner = (emptyStore, none) :=
  ⟨(c9_insert_repository_owner_exists storeWithRepo5 repoSummaryNew).1
      (by unfold OwnerInv; decide),
    (c9_insert_repository_owner_exists emptyStore repoSummaryNoOwner).2 rfl rfl⟩

/-- C4 counterexample: re-ingesting repository 5 with a fresh star count of
999 leaves the stored row at 10 stars and the store unchanged - the pipeline
skips the duplicate instead of updating it latest-write-wins. -/
theorem c4_counterexample :
    process_repository (fun d => d) storeWithRepo5 0 repoSummaryNew
      = (storeWithRepo5, 1, none) ∧
    storeWithRepo5.repositories.map (fun r => r.stargazers_count) = [10] ∧
    repoSummaryNew.stargazers_count = some 999 ∧ (10 : ℕ) ≠ 999 := by
  refine ⟨by decide, by decide, rfl, by decide⟩

/-- C4 amended: for a summary with a truthy id that already exists in
storage, _process_repository counts the duplicate metric and returns with the
store untouched and nothing written - it skips, it does not update (so the
enrichment aggregates trivially keep their stored values). -/
theorem c4_duplicate_counted_and_skipped (owner_proc : RepoData → RepoData)
    (s : Store) (m : ℕ) (d : RepoData) (hid : d.id ≠ 0)
    (hex : check_repository_exists s d.id = true) :
    process_repository owner_proc s m d = (s, m + 1, none) := by
  unfold process_repository
  rw [if_pos ⟨hid, hex⟩]

/-- Witness for the C4 amended theorem at the fixture input. -/
theorem c4_duplicate_counted_and_skipped_witness :
    process_repository (fun d => d) storeWithRepo5 3 repoSummaryNew
      = (storeWithRepo5, 3 + 1, none) :=
  c4_duplicate_counted_and_skipped (fun d => d) storeWithRepo5 3 repoSummaryNew
    (by decide) (by decide)

/-! ## Lemmas about GraphQL enrichment (claims C2, C6) -/

/-- C6 amended: a 403 response with X-RateLimit-Remaining 0 makes the batch
loop sleep until the reset timestamp plus 2 seconds (twice: once in the
pre-emptive remaining ≤ 3 check, once in the explicit 403 handler) and then
move on to the next of the 3 attempts - the continue statement targets the
for loop, so the rate-limited attempt is consumed. -/
theorem c6_rate_limit_consumes_attempt (oracle : ℕ → AttemptOutcome) (now : ℤ)
    (attempt rem : ℕ) (reset : ℤ) (payload : List (Option GqlRepo))
    (h : oracle attempt = .httpResponse 403 0 reset payload) :
    attemptLoop oracle now attempt (rem + 1)
      = ((attemptLoop oracle now (attempt + 1) rem).1,
         (attemptLoop oracle now (attempt + 1) rem).2.1,
         max 0 (reset - now + 2) :: max 0 (reset - now + 2)
           :: (attemptLoop oracle now (attempt + 1) rem).2.2) := by
  simp only [attemptLoop, h]
  norm_num

/-- Witness for the C6 amended theorem at a concrete rate-limited attempt. -/
theorem c6_rate_limit_consumes_attempt_witness :
    attemptLoop (fun _ => .httpResponse 403 0 50 []) 0 0 (2 + 1)
      = ((attemptLoop (fun _ => .httpResponse 403 0 50 []) 0 (0 + 1) 2).1,
         (attemptLoop (fun _ => .httpResponse 403 0 50 []) 0 (0 + 1) 2).2.1,
         max 0 (50 - 0 + 2) :: max 0 (50 - 0 + 2)
           :: (attemptLoop (fun _ => .httpResponse 403 0 50 []) 0 (0 + 1) 2).2.2) :=
  c6_rate_limit_consumes_attempt (fun _ => .httpResponse 403 0 50 []) 0 0 2 50 [] rfl

/-- C6 counterexample: against an endpoint that answers 403 with remaining 0
three times and would succeed on the fourth request, the batch is marked as
terminally failed - the three rate-limited responses consumed all 3 retry
attempts, which the claim says they must not. -/
theorem c6_counterexample :
    (attemptLoop (oracle403 0) 0 0 3).1 = false ∧
    (fetch_repo_stats oracle403 0 [("octo", "repo")] 1 0).2 = [[("octo", "repo")]] := by
  constructor <;> decide

/-- Every stat extracted from a GraphQL response object carries only the
repo_id and database_id keys: databaseId and id are never set. -/
theorem extractStats_shape :
    ∀ payload, ∀ st ∈ extractStats payload, st.databaseId = none ∧ st.id = none := by
  intro payload
  induction payload with
  | nil => intro st hst; simp [extractStats] at hst
  | cons o rest ih =>
    intro st hst
    match o with
    | none => exact ih st (by simpa [extractStats] using hst)
    | some rd =>
      rw [extractStats] at hst
      by_cases h : rd.id = ""
      · rw [if_pos h] at hst
        exact ih st hst
      · rw [if_neg h] at hst
        rcases List.mem_cons.mp hst with h1 | h1
        · subst h1; exact ⟨rfl, rfl⟩
        · exact ih st h1

/-- The stats the per-batch attempt loop returns all come from extractStats,
so they carry no databaseId or id key either. -/
theorem attemptLoop_shape (oracle : ℕ → AttemptOutcome) (now : ℤ) :
    ∀ (rem attempt : ℕ), ∀ st ∈ (attemptLoop oracle now attempt rem).2.1,
      st.databaseId = none ∧ st.id = none := by
  intro rem
  induction rem with
  | zero => intro attempt st hst; simp [attemptLoop] at hst
  | succ rem ih =>
    intro attempt st hst
    rw [attemptLoop] at hst
    rcases ho : oracle attempt with _ | ⟨status, remaining, reset, payload⟩
    · rw [ho] at hst
      exact ih (attempt + 1) st hst
    · rw [ho] at hst
      dsimp only at hst
      by_cases h5 : 500 ≤ status
      · rw [if_pos h5] at hst
        exact ih (attempt + 1) st hst
      · rw [if_neg h5] at hst
        by_cases h403 : status = 403 ∧ remaining = 0
        · rw [if_pos h403] at hst
          exact ih (attempt + 1) st hst
        · rw [if_neg h403] at hst
          by_cases h4 : 400 ≤ status
          · rw [if_pos h4] at hst
            exact ih (attempt + 1) st hst
          · rw [if_neg h4] at hst
            exact extractStats_shape payload st hst

/-- All stats fetch_repo_stats accumulates carry no databaseId or id key. -/
theorem fetch_repo_stats_shape (oracle : ℕ → ℕ → AttemptOutcome) (now : ℤ)
    (repos : List RepoRef) (bs si : ℕ) :
    ∀ st ∈ (fetch_repo_stats oracle now repos bs si).1,
      st.databaseId = none ∧ st.id = none := by
  unfold fetch_repo_stats
  suffices h : ∀ (l : List (ℕ × List RepoRef)) (acc : List Stat × List (List RepoRef)),
      (∀ st ∈ acc.1, st.databaseId = none ∧ st.id = none) →
      ∀ st ∈ (l.foldl
        (fun acc p =>
          if p.1 < si then acc
          else
            let r := attemptLoop (oracle p.1) now 0 3
            (acc.1 ++ r.2.1, acc.2 ++ if r.1 then [] else [p.2]))
        acc).1, st.databaseId = none ∧ st.id = none by
    exact h ((batchList bs repos).enum) ([], []) (by simp)
  intro l
  induction l with
  | nil => intro acc hacc st hst; exact hacc st hst
  | cons p rest ih =>
    intro acc hacc st hst
    rw [List.foldl_cons] at hst
    by_cases hskip : p.1 < si
    · rw [if_pos hskip] at hst
      exact ih acc hacc st hst
    · rw [if_neg hskip] at hst
      refine ih _ ?_ st hst
      intro st1 hst1
      rcases List.mem_append.mp hst1 with h1 | h1
      · exact hacc st1 h1
      · exact attemptLoop_shape (oracle p.1) now 3 0 st1 h1

/-- Every tuple the updater queues for the UPDATE statement comes from a stat
whose selected id casts to the key of the tuple, and that key is an existing row. -/
theorem collectUpdateTuples_key (db : List EnrichRow) :
    ∀ (stats : List Stat) (t : ℕ × ℕ × ℕ × ℤ), t ∈ collectUpdateTuples db stats →
      ∃ st ∈ stats, (selectId st).bind IdVal.toInt? = some t.2.2.2 ∧
        db.any (fun r => r.id = t.2.2.2) = true := by
  intro stats
  induction stats with
  | nil => intro t ht; simp [collectUpdateTuples] at ht
  | cons st rest ih =>
    intro t ht
    rw [collectUpdateTuples] at ht
    rcases hsel : (selectId st).bind IdVal.toInt? with _ | i
    · rw [hsel] at ht
      obtain ⟨st1, hmem, hrest⟩ := ih t ht
      exact ⟨st1, List.mem_cons_of_mem st hmem, hrest⟩
    · rw [hsel] at ht
      dsimp only at ht
      by_cases hdb : db.any (fun r => r.id = i) = true
      · rw [if_pos hdb] at ht
        rcases List.mem_cons.mp ht with h1 | h1
        · refine ⟨st, List.mem_cons_self st rest, ?_⟩
          rw [h1]
          exact ⟨hsel, hdb⟩
        · obtain ⟨st1, hmem, hrest⟩ := ih t h1
          exact ⟨st1, List.mem_cons_of_mem st hmem, hrest⟩
      · rw [if_neg hdb] at ht
        obtain ⟨st1, hmem, hrest⟩ := ih t ht
        exact ⟨st1, List.mem_cons_of_mem st hmem, hrest⟩

/-- C2 amended (first conjunct of the claim holds in the composed pipeline):
every update tuple queued from the fetched-then-filtered stats is keyed on a
numeric database_id value that the script found among the selected repository
ids - a result carrying only the node id is filtered out and never updates a
row.  The second conjunct of the claim fails: see the counterexample. -/
theorem c2_updates_keyed_on_database_id (oracle : ℕ → ℕ → AttemptOutcome)
    (now : ℤ) (repos : List RepoRef) (bs si : ℕ) (db : List EnrichRow)
    (db_ids : List ℤ) :
    ∀ t ∈ collectUpdateTuples db
        (filter_stats_for_update db_ids (fetch_repo_stats oracle now repos bs si).1),
      ∃ st ∈ (fetch_repo_stats oracle now repos bs si).1,
        st.database_id = some (.int t.2.2.2) ∧ t.2.2.2 ∈ db_ids := by
  intro t ht
  obtain ⟨st, hmem, hsel, _⟩ := collectUpdateTuples_key db _ t ht
  have hmem1 := List.mem_filter.mp hmem
  obtain ⟨hst, hcond⟩ := hmem1
  have hshape := fetch_repo_stats_shape oracle now repos bs si st hst
  rcases hdbid : st.database_id with _ | v
  · rw [hdbid] at hcond
    simp at hcond
  · rcases v with n | s0
    · rw [hdbid] at hcond
      have hin : n ∈ db_ids := by simpa using hcond
      have hselval : selectId st = some (.int n) := by
        unfold selectId
        rw [hshape.1, hdbid]
        rfl
      rw [hselval] at hsel
      have : (n : ℤ) = t.2.2.2 := by
        simpa [IdVal.toInt?] using hsel
      exact ⟨st, hst, by rw [hdbid, this], this ▸ hin⟩
    · rw [hdbid] at hcond
      simp at hcond

/-- Witness for the C2 amended theorem: a fetched stat with databaseId 123
produces exactly the update tuple keyed 123. -/
theorem c2_updates_keyed_on_database_id_witness :
    ∃ st ∈ (fetch_repo_stats (fun _ _ => .httpResponse 200 100 0
        [some ⟨"MDEwOlJlcG9zaXRvcnkx", some 123, some 5, some 7⟩]) 0
        [("octo", "repo")] 1 0).1,
      st.database_id = some (.int (5, 7, 0, (123 : ℤ)).2.2.2) ∧
        (5, 7, 0, (123 : ℤ)).2.2.2 ∈ [(123 : ℤ)] :=
  c2_updates_keyed_on_database_id
    (fun _ _ => .httpResponse 200 100 0
      [some ⟨"MDEwOlJlcG9zaXRvcnkx", some 123, some 5, some 7⟩]) 0
    [("octo", "repo")] 1 0 [⟨123, none, none, none⟩] [123]
    (5, 7, 0, 123) (by decide)

/-- C2 counterexample: a batch whose GraphQL response succeeds but carries
only the opaque node id (databaseId null) is not treated as failed: the
failed-batches list stays empty, while the stat - with database_id None - is
returned among the successes (it is later silently dropped by the script
filter, not recorded as a failure). -/
theorem c2_counterexample :
    (fetch_repo_stats oracleNodeOnly 0 [("octo", "repo")] 1 0).2 = [] ∧
    (fetch_repo_stats oracleNodeOnly 0 [("octo", "repo")] 1 0).1
      = [{ repo_id := some (.str "MDEwOlJlcG9zaXRvcnkx"), database_id := none,
           calculated_pr_count := 5, calculated_commit_count := 7,
           calculated_contributor_count := 0 }] ∧
    filter_stats_for_update [123] (fetch_repo_stats oracleNodeOnly 0
      [("octo", "repo")] 1 0).1 = [] := by
  refine ⟨by decide, by decide, by decide⟩

/-! ## Lemmas about the token pool and the HTTP client (claims C7, C8) -/

/-- On a non-empty pool, get_best_token always produces a credential. -/
theorem get_best_token_ok_of_ne_nil (pool : List TokenInfo) (now : ℚ)
    (h : pool ≠ []) :
    ∃ tk pool1, get_best_token pool now = .ok (tk, pool1) := by
  rcases pool with _ | ⟨i0, rest⟩
  · exact absurd rfl h
  · unfold get_best_token
    rcases hb : bestAvailable ((refreshTokens (i0 :: rest) now).filter
        fun t => 0 < t.remaining) with _ | best
    · simp only [hb]
      simp only [refreshTokens, List.map_cons, minByResetTime]
      exact ⟨_, _, rfl⟩
    · exact ⟨best.token,
        (refreshTokens (i0 :: rest) now).map
          (fun i => if i.token = best.token then { i with last_used := now } else i),
        by simp only [hb]⟩

/-- C8: credential selection on the pool fails (the Python builtin min on an empty
sequence, the failure the spec names PoolExhausted) exactly when the pool was
constructed with no credentials; with at least one credential get_best_token
always returns one and never raises (the blocking wait is a terminating sleep
loop, modelled as pure waiting). -/
theorem c8_pool_exhausted_iff_empty (pool : List TokenInfo) (now : ℚ) :
    ((get_best_token pool now).isOk = true ↔ pool ≠ []) ∧
    get_best_token [] now = .error .poolExhausted := by
  constructor
  · constructor
    · intro hok
      intro hnil
      subst hnil
      simp [get_best_token, refreshTokens, bestAvailable, minByResetTime,
        Except.isOk, Except.toBool] at hok
    · intro hne
      obtain ⟨tk, pool1, hok⟩ := get_best_token_ok_of_ne_nil pool now hne
      rw [hok]
      rfl
  · rfl

/-- The behaviour of GitHubAPI.request on a fresh, truthy cache hit: the
cached document is returned, no HTTP request goes out, the cache is
unchanged, one cache hit is counted - and the token pool has already been
consulted, because _get_client runs before the cache check. -/
theorem cache_hit_request_spec (s : ApiState) (now : ℚ) (http : ℕ → HttpResp)
    (endpoint : String) (params : List (String × String)) (d : Json)
    (hpool : s.pool ≠ [])
    (hen : ∀ tk, (s.clients tk).cache_enabled = true)
    (hcache : get_from_cache true s.cache now endpoint params = some d)
    (hd : d ≠ []) :
    (api_request s now http "GET" endpoint params true).1 = .ok d ∧
    (api_request s now http "GET" endpoint params true).2.2 = 0 ∧
    (api_request s now http "GET" endpoint params true).2.1.cache_hits
      = s.cache_hits + 1 ∧
    (api_request s now http "GET" endpoint params true).2.1.cache = s.cache := by
  obtain ⟨tk, pool1, hok⟩ := get_best_token_ok_of_ne_nil s.pool now hpool
  suffices h : apiRequestLoop http now "GET" endpoint params true 0 3 s
      = (.ok d,
         { pool := update_token_info pool1 tk (s.clients tk).rate_limit_remaining
             (s.clients tk).rate_limit_reset,
           clients := fun t => if t = tk then s.clients tk else s.clients t,
           cache := s.cache,
           cache_hits := s.cache_hits + 1 }, 0) by
    unfold api_request
    rw [h]
    exact ⟨rfl, rfl, rfl, rfl⟩
  rw [show (3 : ℕ) = 2 + 1 from rfl, apiRequestLoop]
  unfold api_get_client
  rw [hok]
  dsimp only
  unfold client_request
  rw [if_pos ⟨rfl, rfl⟩]
  rw [hen tk, hcache]
  dsimp only
  rw [if_neg hd]
  rfl

/-- C7 amended: on a fresh, truthy cache hit for a GET request with
use_cache, GitHubAPI.request returns the cached document, issues no HTTP
request, leaves the cache unchanged and counts one cache hit - but the token
pool is consulted first: GitHubAPI.request calls _get_client (credential
selection plus update_token_info) before GitHubClient.request ever looks at
the cache, so a credential is selected and stamped even on a cache hit (see
the counterexample for the stamped last_used). -/
theorem c7_cache_hit_no_http (s : ApiState) (now : ℚ) (http : ℕ → HttpResp)
    (endpoint : String) (params : List (String × String)) (d : Json)
    (hpool : s.pool ≠ [])
    (hen : ∀ tk, (s.clients tk).cache_enabled = true)
    (hcache : get_from_cache true s.cache now endpoint params = some d)
    (hd : d ≠ []) :
    (api_request s now http "GET" endpoint params true).1 = .ok d ∧
    (api_request s now http "GET" endpoint params true).2.2 = 0 ∧
    (api_request s now http "GET" endpoint params true).2.1.cache_hits
      = s.cache_hits + 1 ∧
    (api_request s now http "GET" endpoint params true).2.1.cache = s.cache :=
  cache_hit_request_spec s now http endpoint params d hpool hen hcache hd

/-- Witness for the C7 amended theorem at the fixture: the cached search
response is served with no wire traffic and one recorded cache hit. -/
theorem c7_cache_hit_no_http_witness :
    (api_request apiStart 100 (fun _ => .netErr) "GET" "search/repositories" [] true).1
      = .ok [("total_count", 42)] ∧
    (api_request apiStart 100 (fun _ => .netErr) "GET" "search/repositories" [] true).2.2
      = 0 ∧
    (api_request apiStart 100 (fun _ => .netErr) "GET" "search/repositories"
        [] true).2.1.cache_hits = apiStart.cache_hits + 1 ∧
    (api_request apiStart 100 (fun _ => .netErr) "GET" "search/repositories"
        [] true).2.1.cache = apiStart.cache :=
  c7_cache_hit_no_http apiStart 100 (fun _ => .netErr) "search/repositories" []
    [("total_count", 42)] (by simp [apiStart]) (fun _ => rfl)
    (by norm_num [get_from_cache, apiStart, cacheKey, List.find?]) (by simp)

/-- C7 counterexample: serving the very same cache hit still selects
credential t1 and stamps its last_used from 0 to 100 - the token pool is
consulted and mutated on a cache hit, because _get_client runs before the
cache is checked. -/
theorem c7_counterexample :
    (api_request apiStart 100 (fun _ => .netErr) "GET" "search/repositories" [] true).1
      = .ok [("total_count", 42)] ∧
    (api_request apiStart 100 (fun _ => .netErr) "GET" "search/repositories"
        [] true).2.1.pool = [⟨"t1", 5000, 0, 100⟩] ∧
    apiStart.pool = [⟨"t1", 5000, 0, 0⟩] ∧ ((100 : ℚ) ≠ 0) := by
  have hbest : get_best_token apiStart.pool 100
      = .ok ("t1", [⟨"t1", 5000, 100 + 3600, 100⟩]) := by
    norm_num [get_best_token, apiStart, refreshTokens, bestAvailable, List.filter]
  have hmain := cache_hit_request_spec apiStart 100 (fun _ => .netErr)
    "search/repositories" [] [("total_count", 42)] (by simp [apiStart]) (fun _ => rfl)
    (by norm_num [get_from_cache, apiStart, cacheKey, List.find?]) (by simp)
  refine ⟨hmain.1, ?_, rfl, by norm_num⟩
  rw [api_request, show (3 : ℕ) = 2 + 1 from rfl, apiRequestLoop]
  unfold api_get_client
  rw [hbest]
  dsimp only
  rw [client_request, if_pos ⟨rfl, rfl⟩]
  rw [show (apiStart.clients "t1").cache_enabled = true from rfl]
  rw [show get_from_cache true apiStart.cache 100 "search/repositories" []
      = some [("total_count", 42)] from
    by norm_num [get_from_cache, apiStart, cacheKey, List.find?]]
  dsimp only
  norm_num [update_token_info, apiStart, clientT1]

end GHColl
